import Mathlib

set_option maxHeartbeats 1000000

/-! Shallow embedding of the path-confinement guard and the four file
operations of `src/main.py` (a fastmcp file server confined to one allowed
root directory).  Python strings are modelled as `String`, Python
exceptions as explicit `Option`/`Except` values, and the operating-system
capabilities that the code consumes (`os.path.abspath`, `os.path.realpath`,
`os.path.relpath`, `os.makedirs`, `open`, `os.listdir`, `glob.glob`) as an
oracle record `Os` plus an explicit filesystem state `FsState`. -/

/-- Python exception classes distinguished by the try/except ladders of the
operations.  `other` carries the rendering of `str(e)` for every exception
that only the generic `except Exception` handler catches. -/
inductive PyErr where
  | fileNotFound
  | permission
  | other (msg : String)
deriving DecidableEq

/-- The rendering of `str(e)` used where an exception is interpolated into a
generic error message. -/
def PyErr.toMsg : PyErr → String
  | .fileNotFound => "FileNotFoundError"
  | .permission => "PermissionError"
  | .other m => m

/-- `os.sep` on the POSIX platform the server runs on. -/
def osSep : String := "/"

/-- `os.sep` as a single character. -/
def osSepChar : Char := '/'

/-- Python `str.startswith` on character lists: `listStarts pre l` is true
when `pre` is a prefix of `l`. -/
def listStarts : List Char → List Char → Bool
  | [], _ => true
  | _ :: _, [] => false
  | p :: ps, x :: xs => (p == x) && listStarts ps xs

/-- Python `s.startswith(pre)`. -/
def pyStartswith (s pre : String) : Bool := listStarts pre.data s.data

/-- Python `s.endswith(suf)`. -/
def pyEndswith (s suf : String) : Bool := listStarts suf.data.reverse s.data.reverse

/-- Python `str.split(sep)` with a one-character separator, on character
lists: splitting never yields the empty list (splitting the empty string
yields one empty segment, as in Python). -/
def splitChar (c : Char) : List Char → List (List Char)
  | [] => [[]]
  | x :: xs =>
    match splitChar c xs with
    | [] => [[]]
    | r :: rs => if x = c then [] :: r :: rs else (x :: r) :: rs

/-- The segment `".."` as a character list, the parent-reference token that
`is_path_allowed` looks for among the segments of the relative path. -/
def dotdotChars : List Char := ['.', '.']

/-- `posixpath.dirname`: everything up to the last separator, with trailing
separators stripped unless the head is all separators. -/
def pyDirname (p : String) : String :=
  let head := (p.data.reverse.dropWhile (fun c => c ≠ osSepChar)).reverse
  if head ≠ [] ∧ head.any (fun c => c ≠ osSepChar) then
    ⟨(head.reverse.dropWhile (fun c => c = osSepChar)).reverse⟩
  else ⟨head⟩

/-- `posixpath.join` for two components, as used when building the glob
search pattern. -/
def pyJoin (a b : String) : String :=
  if pyStartswith b osSep then b
  else if a = "" || pyEndswith a osSep then a ++ b
  else a ++ osSep ++ b

/-- The operating-system capabilities the code consumes, together with the
configured allowed root (`ALLOWED_PROJECT_DIR`).  Fallible calls return
`Option`/`Except`: `none`/`.error` stands for a raised exception, which the
Python code catches.  The error-injection fields (`makedirsErr`,
`openWriteErr`, `openReadErr`, `listdirErr`) model the environment-dependent
failures (permissions, decode errors, is-a-directory, disk faults) of the
corresponding OS calls. -/
structure Os where
  root : String
  abspath : String → String
  realpath : String → Option String
  relpath : String → String → Option String
  makedirsErr : String → Option PyErr
  openWriteErr : String → Option PyErr
  openReadErr : String → Option PyErr
  listdirErr : String → Option PyErr
  glob : String → Bool → Except PyErr (List String)

/-- `is_path_allowed` of `src/main.py`: resolve the candidate with
`os.path.realpath(os.path.abspath(file_path))`; allow the root itself; else
require the resolved path to extend `root + os.sep`, and deny when the
relative path with respect to the root contains a `".."` segment or cannot
be computed.  Any resolution failure is caught and answered with `False`. -/
def is_path_allowed (os : Os) (file_path : String) : Bool :=
  match os.realpath (os.abspath file_path) with
  | none => false
  | some abs_path =>
    if abs_path = os.root then true
    else if pyStartswith abs_path (os.root ++ osSep) then
      match os.relpath abs_path os.root with
      | none => false
      | some relative_path =>
        if (splitChar osSepChar relative_path.data).contains dotdotChars then false
        else true
    else false

/-- The mutable filesystem facts the four operations read and write:
file contents keyed by absolute path, and the set of existing directories. -/
structure FsState where
  files : List (String × String)
  dirs : List String

/-- Contents of the file stored at absolute path `p`, if any. -/
def getFile (σ : FsState) (p : String) : Option String :=
  (σ.files.find? (fun kv => kv.1 = p)).map (fun kv => kv.2)

/-- `os.path.exists` over the modelled state. -/
def pathExists (σ : FsState) (p : String) : Bool :=
  (getFile σ p).isSome || σ.dirs.contains p

/-- The name of `q` as a direct child of directory `p`, when it is one. -/
def childNameOf (p q : String) : Option String :=
  if listStarts (p ++ osSep).data q.data then
    let rest := q.data.drop (p ++ osSep).data.length
    if rest ≠ [] ∧ rest.all (fun c => c ≠ osSepChar) then some ⟨rest⟩ else none
  else none

/-- `os.listdir` over the modelled state: the names of the immediate
children of `p` among the recorded files and directories. -/
def childNames (σ : FsState) (p : String) : List String :=
  (((σ.files.map (fun kv => kv.1)) ++ σ.dirs).filterMap (childNameOf p)).dedup

/-- The chain of directories `os.makedirs` creates: `p` and its ancestors,
computed by iterating `posixpath.dirname` (with a fuel bound). -/
def dirChainAux : Nat → String → List String
  | 0, p => [p]
  | n + 1, p =>
    let q := pyDirname p
    if q = p then [p] else p :: dirChainAux n q

/-- `dirChain p` is `p` together with all its ancestors. -/
def dirChain (p : String) : List String := dirChainAux p.data.length p

/-! The exact message strings of `src/main.py`, one definition per f-string
template. -/

/-- Denial message of `read_local_file`. -/
def readDeniedMsg (p : String) : String :=
  "Error: Access denied. Reading from '" ++ p ++ "' is not allowed or outside the project directory."

/-- Not-found message of `read_local_file`. -/
def fileNotFoundMsg (p : String) : String :=
  "Error: File not found at '" ++ p ++ "'."

/-- Permission message of `read_local_file`. -/
def readPermMsg (p : String) : String :=
  "Error: Permission denied when trying to read '" ++ p ++ "'."

/-- Generic cause-carrying failure message of `read_local_file`. -/
def readGenericMsg (p e : String) : String :=
  "Error reading file '" ++ p ++ "': " ++ e

/-- Denial message of `write_local_file`. -/
def writeDeniedMsg (p : String) : String :=
  "Error: Access denied. Writing to '" ++ p ++ "' is not allowed or outside the project directory."

/-- Parent-directory denial message of `write_local_file`. -/
def cannotCreateMsg (parent : String) : String :=
  "Error: Cannot create directory '" ++ parent ++ "' as it is outside the allowed project directory."

/-- Permission message of `write_local_file`. -/
def writePermMsg (p : String) : String :=
  "Error: Permission denied when trying to write to '" ++ p ++ "' or create its parent directory."

/-- Generic cause-carrying failure message of `write_local_file`. -/
def writeGenericMsg (p e : String) : String :=
  "Error writing to file '" ++ p ++ "': " ++ e

/-- Success message of `write_local_file`. -/
def writeSuccessMsg (p : String) : String :=
  "Successfully wrote to file '" ++ p ++ "'."

/-- Denial message of `list_directory`. -/
def listDeniedMsg (p : String) : String :=
  "Error: Access denied. Listing directory '" ++ p ++ "' is not allowed or outside the project directory."

/-- Not-found message of `list_directory`. -/
def dirNotFoundMsg (p : String) : String :=
  "Error: Directory not found at '" ++ p ++ "'."

/-- Not-a-directory message of `list_directory`. -/
def notADirMsg (p : String) : String :=
  "Error: The path '" ++ p ++ "' is not a directory."

/-- Permission message of `list_directory`. -/
def listPermMsg (p : String) : String :=
  "Error: Permission denied when trying to list directory '" ++ p ++ "'."

/-- Generic cause-carrying failure message of `list_directory`. -/
def listGenericMsg (p e : String) : String :=
  "Error listing directory '" ++ p ++ "': " ++ e

/-- Denial message of `find_files_by_pattern`. -/
def findDeniedMsg (b : String) : String :=
  "Error: Access denied. Searching in '" ++ b ++ "' is not allowed or outside the project directory."

/-- Not-found message of `find_files_by_pattern`. -/
def baseNotFoundMsg (b : String) : String :=
  "Error: Base directory not found at '" ++ b ++ "'."

/-- Not-a-directory message of `find_files_by_pattern`. -/
def baseNotDirMsg (b : String) : String :=
  "Error: The base path '" ++ b ++ "' is not a directory."

/-- Permission message of `find_files_by_pattern`. -/
def findPermMsg (b : String) : String :=
  "Error: Permission denied during search in '" ++ b ++ "'."

/-- Generic cause-carrying failure message of `find_files_by_pattern`. -/
def findGenericMsg (pat b e : String) : String :=
  "Error finding files with pattern '" ++ pat ++ "' in '" ++ b ++ "': " ++ e

/-- `read_local_file` of `src/main.py`: guard check, then open the absolute
path for reading; `FileNotFoundError`, `PermissionError` and every other
exception are mapped to their message strings. -/
def read_local_file (os : Os) (σ : FsState) (file_path : String) : String :=
  if !is_path_allowed os file_path then readDeniedMsg file_path
  else
    let abs_file_path := os.abspath file_path
    match os.openReadErr abs_file_path with
    | some .fileNotFound => fileNotFoundMsg file_path
    | some .permission => readPermMsg file_path
    | some (.other m) => readGenericMsg file_path m
    | none =>
      match getFile σ abs_file_path with
      | none => fileNotFoundMsg file_path
      | some content => content

/-- `write_local_file` of `src/main.py`: guard check on the leaf, then a
second guard check on `os.path.dirname` of the absolute path, then
`os.makedirs(parent, exist_ok=True)` and the file write; `PermissionError`
from either OS call maps to the permission message, every other exception
to the generic message.  Returns the new state and the result string. -/
def write_local_file (os : Os) (σ : FsState) (file_path content : String) :
    FsState × String :=
  if !is_path_allowed os file_path then (σ, writeDeniedMsg file_path)
  else
    let abs_file_path := os.abspath file_path
    let parent_dir := pyDirname abs_file_path
    if !is_path_allowed os parent_dir then (σ, cannotCreateMsg parent_dir)
    else
      match os.makedirsErr parent_dir with
      | some .permission => (σ, writePermMsg file_path)
      | some e => (σ, writeGenericMsg file_path e.toMsg)
      | none =>
        let σ1 : FsState :=
          { σ with dirs := σ.dirs ++ (dirChain parent_dir).filter (fun d => !σ.dirs.contains d) }
        match os.openWriteErr abs_file_path with
        | some .permission => (σ1, writePermMsg file_path)
        | some e => (σ1, writeGenericMsg file_path e.toMsg)
        | none =>
          ({ σ1 with
              files := (abs_file_path, content) :: σ1.files.filter (fun kv => kv.1 ≠ abs_file_path) },
           writeSuccessMsg file_path)

/-- `list_directory` of `src/main.py`: guard check, existence check,
directory check, then `os.listdir`; `PermissionError` and other exceptions
map to their message strings.  `Sum.inl` carries the error string,
`Sum.inr` the listing. -/
def list_directory (os : Os) (σ : FsState) (dir_path : String) :
    Sum String (List String) :=
  if !is_path_allowed os dir_path then .inl (listDeniedMsg dir_path)
  else
    let abs_dir_path := os.abspath dir_path
    if !pathExists σ abs_dir_path then .inl (dirNotFoundMsg dir_path)
    else if !σ.dirs.contains abs_dir_path then .inl (notADirMsg dir_path)
    else
      match os.listdirErr abs_dir_path with
      | some .permission => .inl (listPermMsg dir_path)
      | some e => .inl (listGenericMsg dir_path e.toMsg)
      | none => .inr (childNames σ abs_dir_path)

/-- The glob search pattern `find_files_by_pattern` constructs:
`os.path.join(abs_base_dir, "**", pattern)` when recursive, else
`os.path.join(abs_base_dir, pattern)`. -/
def searchPattern (os : Os) (base_dir pat : String) (recursive : Bool) : String :=
  if recursive then pyJoin (pyJoin (os.abspath base_dir) "**") pat
  else pyJoin (os.abspath base_dir) pat

/-- The per-match rendering of `find_files_by_pattern`: the path relative
to the root, prefixed with `"." + os.sep` unless it already starts with
`"."` or `".."`; on a `ValueError` from `os.path.relpath` the absolute
path itself is kept. -/
def renderMatch (os : Os) (path_abs : String) : String :=
  match os.relpath path_abs os.root with
  | some rel_path =>
    if !(pyStartswith rel_path "." || pyStartswith rel_path "..") then
      "." ++ osSep ++ rel_path
    else rel_path
  | none => path_abs

/-- `find_files_by_pattern` of `src/main.py`: guard check, existence and
directory checks on the base, glob expansion, then a per-match loop that
re-checks the guard and appends the rendered path of every allowed match. -/
def find_files_by_pattern (os : Os) (σ : FsState) (base_dir pat : String)
    (recursive : Bool) : Sum String (List String) :=
  if !is_path_allowed os base_dir then .inl (findDeniedMsg base_dir)
  else
    let abs_base_dir := os.abspath base_dir
    if !pathExists σ abs_base_dir then .inl (baseNotFoundMsg base_dir)
    else if !σ.dirs.contains abs_base_dir then .inl (baseNotDirMsg base_dir)
    else
      match os.glob (searchPattern os base_dir pat recursive) recursive with
      | .error .permission => .inl (findPermMsg base_dir)
      | .error e => .inl (findGenericMsg pat base_dir e.toMsg)
      | .ok matched_paths_abs =>
        .inr (matched_paths_abs.foldl
          (fun acc path_abs =>
            if is_path_allowed os path_abs then acc ++ [renderMatch os path_abs] else acc)
          [])

/-- The value `os.path.relpath` returns on POSIX for a path that extends
`root ++ os.sep`: the suffix after the separator. -/
def posixStripRel (r root : String) : String := ⟨r.data.drop (root.data.length + 1)⟩

/-- A concrete oracle for witnesses: root `/R`, identity path resolution
(with the empty string unresolvable), POSIX relative paths, no injected
OS faults, and a glob that matches `*.txt` directly under the root,
including one symlinked match that escapes the root. -/
def osW : Os where
  root := "/R"
  abspath := fun s => s
  realpath := fun s => if s = "" then none else some s
  relpath := fun a r =>
    if pyStartswith a (r ++ osSep) then some ⟨a.data.drop (r.data.length + 1)⟩ else none
  makedirsErr := fun _ => none
  openWriteErr := fun _ => none
  openReadErr := fun _ => none
  listdirErr := fun _ => none
  glob := fun pat rec =>
    if pat = "/R/*.txt" && !rec then .ok ["/R/a.txt", "/out/b.txt"] else .ok []

/-- A concrete state for witnesses: one file `/R/x.txt` and the root
directory itself. -/
def fsW : FsState where
  files := [("/R/x.txt", "hello")]
  dirs := ["/R"]

/-- A concrete oracle describing root `/R` with `/R/link` a symbolic link
to the root directory itself: `realpath` sends `/R/link` to `/R`, and
opening `/R/link` for writing raises `IsADirectoryError`. -/
def osLinkRoot : Os where
  root := "/R"
  abspath := fun s => s
  realpath := fun s => if s = "/R/link" then some "/R" else some s
  relpath := fun a r =>
    if pyStartswith a (r ++ osSep) then some ⟨a.data.drop (r.data.length + 1)⟩ else none
  makedirsErr := fun _ => none
  openWriteErr := fun s => if s = "/R/link" then some (.other "[Errno 21] Is a directory") else none
  openReadErr := fun _ => none
  listdirErr := fun _ => none
  glob := fun _ _ => .ok []

/-- The filesystem state that goes with `osLinkRoot`. -/
def fsLinkRoot : FsState where
  files := []
  dirs := ["/R", "/"]

/-- A concrete oracle describing root `/S` with `/S/ln` a symbolic link to
the root directory itself, used to compare the parent of the resolved path
with the parent the code actually checks. -/
def osLinkRootS : Os where
  root := "/S"
  abspath := fun s => s
  realpath := fun s => if s = "/S/ln" then some "/S" else some s
  relpath := fun a r =>
    if pyStartswith a (r ++ osSep) then some ⟨a.data.drop (r.data.length + 1)⟩ else none
  makedirsErr := fun _ => none
  openWriteErr := fun s => if s = "/S/ln" then some (.other "[Errno 21] Is a directory") else none
  openReadErr := fun _ => none
  listdirErr := fun _ => none
  glob := fun _ _ => .ok []

/-- The filesystem state that goes with `osLinkRootS`. -/
def fsLinkRootS : FsState where
  files := []
  dirs := ["/S", "/"]

/-- A concrete oracle for the reachability of the generic read failure:
root `/R`, and opening `/R/x.bin` raises a decode error that only the
generic `except Exception` handler catches. -/
def osDecode : Os where
  root := "/R"
  abspath := fun s => s
  realpath := fun s => if s = "" then none else some s
  relpath := fun a r =>
    if pyStartswith a (r ++ osSep) then some ⟨a.data.drop (r.data.length + 1)⟩ else none
  makedirsErr := fun _ => none
  openWriteErr := fun _ => none
  openReadErr := fun s => if s = "/R/x.bin" then some (.other "UnicodeDecodeError") else none
  listdirErr := fun _ => none
  glob := fun _ _ => .ok []

/-! Helper lemmas about the string primitives. -/

/-- `listStarts` is list-prefix: `pre` starts `l` exactly when `l` extends
`pre`. -/
theorem listStarts_iff (pre l : List Char) :
    listStarts pre l = true ↔ ∃ t, l = pre ++ t := by
  induction pre generalizing l with
  | nil => simp [listStarts]
  | cons p ps ih =>
    cases l with
    | nil => simp [listStarts]
    | cons x xs =>
      simp only [listStarts, Bool.and_eq_true, beq_iff_eq, List.cons_append]
      constructor
      · rintro ⟨rfl, h⟩
        obtain ⟨t, rfl⟩ := (ih xs).1 h
        exact ⟨t, rfl⟩
      · rintro ⟨t, ht⟩
        injection ht with h1 h2
        exact ⟨h1.symm, (ih xs).2 ⟨t, h2⟩⟩

/-- Whether `pre` starts `lit ++ rest` only depends on `lit` when `lit` is
at least as long as `pre`. -/
theorem listStarts_append_of_le (pre lit rest : List Char)
    (h : pre.length ≤ lit.length) :
    listStarts pre (lit ++ rest) = listStarts pre lit := by
  induction pre generalizing lit with
  | nil => simp [listStarts]
  | cons p ps ih =>
    cases lit with
    | nil => simp at h
    | cons x xs =>
      simp only [List.cons_append, listStarts]
      congr 1
      exact ih xs (Nat.succ_le_succ_iff.mp (by simpa using h))

/-- `pyStartswith` of a concatenation whose left part is at least as long
as the candidate head reduces to a check on the left part alone. -/
theorem startswith_lit_eq (lit rest pre : String)
    (hle : pre.data.length ≤ lit.data.length) :
    pyStartswith (lit ++ rest) pre = listStarts pre.data lit.data := by
  unfold pyStartswith
  rw [String.data_append, listStarts_append_of_le _ _ _ hle]

/-- A path that starts a given head decomposes as that head followed by
the dropped remainder. -/
theorem pyStartswith_decomp (s pre : String) (h : pyStartswith s pre = true) :
    s.data = pre.data ++ s.data.drop pre.data.length := by
  obtain ⟨t, ht⟩ := (listStarts_iff pre.data s.data).1 h
  rw [ht, List.drop_left]

/-- `splitChar` never returns the empty list of segments. -/
theorem splitChar_ne_nil (c : Char) (l : List Char) : splitChar c l ≠ [] := by
  cases l with
  | nil => simp [splitChar]
  | cons x xs =>
    simp only [splitChar]
    split
    · simp
    · split <;> simp

/-- Splitting a string that contains a separator yields the segments of the
part after that separator as a strict suffix of the segment list. -/
theorem splitChar_append_cons (c : Char) (a b : List Char) :
    ∃ pre, pre ≠ [] ∧ splitChar c (a ++ c :: b) = pre ++ splitChar c b := by
  induction a with
  | nil =>
    cases hsp : splitChar c b with
    | nil => exact absurd hsp (splitChar_ne_nil c b)
    | cons r rs =>
      refine ⟨[[]], by simp, ?_⟩
      simp [splitChar, hsp]
  | cons x a ih =>
    obtain ⟨pre, hne, hsp⟩ := ih
    cases pre with
    | nil => exact absurd rfl hne
    | cons p0 ptl =>
      by_cases hx : x = c
      · exact ⟨[] :: p0 :: ptl, by simp, by simp [splitChar, hsp, hx]⟩
      · exact ⟨(x :: p0) :: ptl, by simp, by simp [splitChar, hsp, hx]⟩

/-- When the full segment list has no `".."` segment, neither does the
segment list of the part after a separator. -/
theorem noDotDot_suffix (c : Char) (a b : List Char)
    (h : (splitChar c (a ++ c :: b)).contains dotdotChars = false) :
    (splitChar c b).contains dotdotChars = false := by
  obtain ⟨pre, -, hsp⟩ := splitChar_append_cons c a b
  rw [hsp] at h
  simp at h ⊢
  exact h.2

/-- Appending on the right preserves an infix of the character data. -/
theorem infix_data_append (mid : List Char) (a b : String)
    (h : mid <:+: a.data) : mid <:+: (a ++ b).data := by
  obtain ⟨s, t, hst⟩ := h
  exact ⟨s, t ++ b.data, by rw [String.data_append, ← hst]; simp⟩

/-- The fold that `find_files_by_pattern` runs over the glob matches is the
filter of the allowed matches, rendered. -/
theorem foldl_filter_map (P : String → Bool) (f : String → String)
    (l : List String) :
    ∀ acc : List String,
      l.foldl (fun acc m => if P m then acc ++ [f m] else acc) acc
        = acc ++ (l.filter P).map f := by
  induction l with
  | nil => intro acc; simp
  | cons x xs ih =>
    intro acc
    rw [List.foldl_cons, List.filter_cons]
    by_cases h : P x
    · simp only [h, if_true, ih, List.map_cons]
      simp
    · simp [h, ih]

/-- Starting with `".."` entails starting with `"."`. -/
theorem startswith_dot_of_dotdot (rel : String)
    (h : pyStartswith rel ".." = true) : pyStartswith rel "." = true := by
  unfold pyStartswith at h ⊢
  obtain ⟨t, ht⟩ := (listStarts_iff _ _).1 h
  rw [ht]
  exact (listStarts_iff _ _).2 ⟨'.' :: t, rfl⟩

/-- Claim C1: for a candidate path whose resolution (absolute path plus
symlink resolution) yields `r` — necessarily free of residual `".."`
segments, as `os.path.realpath` guarantees — and with `os.path.relpath`
behaving as POSIX relpath does inside the root, `is_path_allowed` answers
true exactly when `r` is the configured root itself or a strict descendant
of it (an extension past `root + os.sep`); in particular the root is
self-included, the parent of the root is denied, and a sibling that merely
extends the root name without a separator is denied. -/
theorem guard_allows_iff_inside (os : Os) (p r : String)
    (hres : os.realpath (os.abspath p) = some r)
    (hnorm : (splitChar osSepChar r.data).contains dotdotChars = false)
    (hrel : pyStartswith r (os.root ++ osSep) = true →
      os.relpath r os.root = some (posixStripRel r os.root)) :
    is_path_allowed os p = true ↔
      (r = os.root ∨ pyStartswith r (os.root ++ osSep) = true) := by
  unfold is_path_allowed
  rw [hres]
  by_cases hroot : r = os.root
  · simp [hroot]
  · simp only [hroot, if_false, false_or]
    by_cases hpre : pyStartswith r (os.root ++ osSep) = true
    · rw [if_pos hpre, hrel hpre]
      have hdec := pyStartswith_decomp r (os.root ++ osSep) hpre
      have hsep : (os.root ++ osSep).data = os.root.data ++ ['/'] := by
        rw [String.data_append]; rfl
      have hlen : (os.root ++ osSep).data.length = os.root.data.length + 1 := by
        rw [hsep, List.length_append]; rfl
      have hrd : r.data = os.root.data ++ '/' :: r.data.drop (os.root.data.length + 1) := by
        rw [← hlen]
        calc r.data = (os.root.data ++ ['/']) ++ r.data.drop (os.root ++ osSep).data.length := by
              rw [← hsep]; exact hdec
          _ = os.root.data ++ '/' :: r.data.drop (os.root ++ osSep).data.length := by simp
      have hnd : (splitChar osSepChar (posixStripRel r os.root).data).contains dotdotChars
          = false := by
        have : (splitChar osSepChar
            (os.root.data ++ '/' :: r.data.drop (os.root.data.length + 1))).contains dotdotChars
            = false := by rw [← hrd]; exact hnorm
        exact noDotDot_suffix '/' _ _ this
      dsimp only
      rw [hnd]
      simp [hpre]
    · simp [hpre, hroot]

/-- Witness for C1 at concrete inputs over `osW` (root `/R`): a file
strictly inside the root is allowed, the name-extending sibling `/R_extra`
is denied, and the root itself is allowed. -/
theorem guard_allows_iff_inside_witness :
    is_path_allowed osW "/R/sub/f.txt" = true ∧
    is_path_allowed osW "/R_extra" = false ∧
    is_path_allowed osW "/R" = true := by
  refine ⟨?_, ?_, ?_⟩
  · exact (guard_allows_iff_inside osW "/R/sub/f.txt" "/R/sub/f.txt" (by decide) (by decide)
      (fun _ => by decide)).mpr (Or.inr (by decide))
  · have h := guard_allows_iff_inside osW "/R_extra" "/R_extra" (by decide) (by decide)
      (fun hp => absurd hp (by decide))
    rcases Bool.eq_false_or_eq_true (is_path_allowed osW "/R_extra") with ht | hf
    · rcases h.mp ht with h1 | h2
      · exact absurd h1 (by decide)
      · exact absurd h2 (by decide)
    · exact hf
  · exact (guard_allows_iff_inside osW "/R" "/R" (by decide) (by decide)
      (fun hp => absurd hp (by decide))).mpr (Or.inl rfl)

/-- Claim C2: the guard is a total boolean function (as its Lean embedding
it can raise nothing), and every modelled failure — a raised exception
during path resolution, or a `ValueError` from the relative-path
computation — yields the answer `false`, never a propagated error. -/
theorem guard_fails_closed (os : Os) (p : String)
    (h : os.realpath (os.abspath p) = none ∨
      ∃ r, os.realpath (os.abspath p) = some r ∧ r ≠ os.root ∧
        pyStartswith r (os.root ++ osSep) = true ∧ os.relpath r os.root = none) :
    is_path_allowed os p = false := by
  unfold is_path_allowed
  rcases h with h | ⟨r, hr, hne, hpre, hrel⟩
  · rw [h]
  · rw [hr]
    dsimp only
    rw [if_neg hne, if_pos hpre, hrel]

/-- Witness for C2: over `osW` the empty candidate path is unresolvable
(`realpath` raises), and the guard answers `false` for it. -/
theorem guard_fails_closed_witness : is_path_allowed osW "" = false :=
  guard_fails_closed osW "" (Or.inl (by decide))

/-- A string that starts a concrete head also starts any extension of that
head. -/
theorem startswith_of_head (pre lit rest : String)
    (h : listStarts pre.data lit.data = true) :
    pyStartswith (lit ++ rest) pre = true := by
  have hle : pre.data.length ≤ lit.data.length := by
    obtain ⟨t, ht⟩ := (listStarts_iff _ _).1 h
    rw [ht, List.length_append]
    omega
  rw [startswith_lit_eq _ _ _ hle]
  exact h

/-- Counterexample to C3 as stated: the generic cause-carrying failure of
the read operation is an actual failure result (produced here by a decode
error on an allowed path), and it does not begin with the prefix
`"Error:"` — it begins with `"Error reading file"`. -/
theorem error_colon_counterexample :
    read_local_file osDecode fsW "/R/x.bin" = readGenericMsg "/R/x.bin" "UnicodeDecodeError" ∧
    pyStartswith (read_local_file osDecode fsW "/R/x.bin") "Error:" = false := by
  constructor
  · decide
  · decide

/-- Claim C3, amended: every failure message of the four operations begins
with `"Error"`; the categorized failures (access denied, not found, not a
directory, permission denied, cannot create parent) begin with the exact
prefix `"Error:"`, while the four generic cause-carrying messages begin
with `"Error "` (a space, not a colon, after `Error`). -/
theorem error_message_prefixes (p b pat parent e : String) :
    pyStartswith (readDeniedMsg p) "Error:" = true ∧
    pyStartswith (fileNotFoundMsg p) "Error:" = true ∧
    pyStartswith (readPermMsg p) "Error:" = true ∧
    pyStartswith (writeDeniedMsg p) "Error:" = true ∧
    pyStartswith (cannotCreateMsg parent) "Error:" = true ∧
    pyStartswith (writePermMsg p) "Error:" = true ∧
    pyStartswith (listDeniedMsg p) "Error:" = true ∧
    pyStartswith (dirNotFoundMsg p) "Error:" = true ∧
    pyStartswith (notADirMsg p) "Error:" = true ∧
    pyStartswith (listPermMsg p) "Error:" = true ∧
    pyStartswith (findDeniedMsg b) "Error:" = true ∧
    pyStartswith (baseNotFoundMsg b) "Error:" = true ∧
    pyStartswith (baseNotDirMsg b) "Error:" = true ∧
    pyStartswith (findPermMsg b) "Error:" = true ∧
    pyStartswith (readGenericMsg p e) "Error " = true ∧
    pyStartswith (readGenericMsg p e) "Error:" = false ∧
    pyStartswith (writeGenericMsg p e) "Error " = true ∧
    pyStartswith (writeGenericMsg p e) "Error:" = false ∧
    pyStartswith (listGenericMsg p e) "Error " = true ∧
    pyStartswith (listGenericMsg p e) "Error:" = false ∧
    pyStartswith (findGenericMsg pat b e) "Error " = true ∧
    pyStartswith (findGenericMsg pat b e) "Error:" = false := by
  refine ⟨?_, ?_, ?_, ?_, ?_, ?_, ?_, ?_, ?_, ?_, ?_, ?_, ?_, ?_, ?_, ?_, ?_, ?_, ?_, ?_, ?_, ?_⟩
  · exact startswith_of_head _ _ _ (startswith_of_head _ _ _ (by decide))
  · exact startswith_of_head _ _ _ (startswith_of_head _ _ _ (by decide))
  · exact startswith_of_head _ _ _ (startswith_of_head _ _ _ (by decide))
  · exact startswith_of_head _ _ _ (startswith_of_head _ _ _ (by decide))
  · exact startswith_of_head _ _ _ (startswith_of_head _ _ _ (by decide))
  · exact startswith_of_head _ _ _ (startswith_of_head _ _ _ (by decide))
  · exact startswith_of_head _ _ _ (startswith_of_head _ _ _ (by decide))
  · exact startswith_of_head _ _ _ (startswith_of_head _ _ _ (by decide))
  · exact startswith_of_head _ _ _ (startswith_of_head _ _ _ (by decide))
  · exact startswith_of_head _ _ _ (startswith_of_head _ _ _ (by decide))
  · exact startswith_of_head _ _ _ (startswith_of_head _ _ _ (by decide))
  · exact startswith_of_head _ _ _ (startswith_of_head _ _ _ (by decide))
  · exact startswith_of_head _ _ _ (startswith_of_head _ _ _ (by decide))
  · exact startswith_of_head _ _ _ (startswith_of_head _ _ _ (by decide))
  · exact startswith_of_head _ _ _
      (startswith_of_head _ _ _ (startswith_of_head _ _ _ (by decide)))
  · unfold readGenericMsg
    simp only [String.append_assoc]
    rw [startswith_lit_eq _ _ _ (by decide)]
    decide
  · exact startswith_of_head _ _ _
      (startswith_of_head _ _ _ (startswith_of_head _ _ _ (by decide)))
  · unfold writeGenericMsg
    simp only [String.append_assoc]
    rw [startswith_lit_eq _ _ _ (by decide)]
    decide
  · exact startswith_of_head _ _ _
      (startswith_of_head _ _ _ (startswith_of_head _ _ _ (by decide)))
  · unfold listGenericMsg
    simp only [String.append_assoc]
    rw [startswith_lit_eq _ _ _ (by decide)]
    decide
  · exact startswith_of_head _ _ _ (startswith_of_head _ _ _ (startswith_of_head _ _ _
      (startswith_of_head _ _ _ (startswith_of_head _ _ _ (by decide)))))
  · unfold findGenericMsg
    simp only [String.append_assoc]
    rw [startswith_lit_eq _ _ _ (by decide)]
    decide

/-- Claim C4: a write to an allowed path that succeeds (guard passes on
the leaf and on the parent, and neither the directory creation nor the
file write raises) stores exactly the given content, and a subsequent
read of the same path, when opening raises nothing, returns exactly that
content. -/
theorem write_read_roundtrip (os : Os) (σ : FsState) (p C : String)
    (h1 : is_path_allowed os p = true)
    (h2 : is_path_allowed os (pyDirname (os.abspath p)) = true)
    (h3 : os.makedirsErr (pyDirname (os.abspath p)) = none)
    (h4 : os.openWriteErr (os.abspath p) = none)
    (h5 : os.openReadErr (os.abspath p) = none) :
    (write_local_file os σ p C).2 = writeSuccessMsg p ∧
    read_local_file os (write_local_file os σ p C).1 p = C := by
  unfold write_local_file
  simp only [h1, h2, h3, h4, Bool.not_true, Bool.false_eq_true, if_false]
  constructor
  · trivial
  · unfold read_local_file
    simp only [h1, Bool.not_true, Bool.false_eq_true, if_false, h5]
    unfold getFile
    simp [List.find?_cons]

/-- Witness for C4: writing `"hi"` to `/R/new.txt` over `osW` succeeds and
reading the path back returns `"hi"`. -/
theorem write_read_roundtrip_witness :
    (write_local_file osW fsW "/R/new.txt" "hi").2 = writeSuccessMsg "/R/new.txt" ∧
    read_local_file osW (write_local_file osW fsW "/R/new.txt" "hi").1 "/R/new.txt" = "hi" :=
  write_read_roundtrip osW fsW "/R/new.txt" "hi" (by decide) (by decide) (by decide)
    (by decide) (by decide)

/-- Membership in the created chain ends up in the directory set after the
idempotent `makedirs` update. -/
theorem contains_append_filter (l ch : List String) (d : String) (hd : d ∈ ch) :
    (l ++ ch.filter (fun x => !l.contains x)).contains d = true := by
  have hmem : d ∈ l ++ ch.filter (fun x => !l.contains x) := by
    rw [List.mem_append]
    by_cases hc : d ∈ l
    · exact Or.inl hc
    · refine Or.inr (List.mem_filter.2 ⟨hd, ?_⟩)
      simp [hc]
  simpa using hmem

/-- Claim C5, amended: for a write whose file path passes the guard, the
code guard-checks the parent directory of the absolute path of the file —
the path before symlink resolution, `os.path.dirname(os.path.abspath(p))`,
not of the fully resolved path (see the counterexample) — before creating
anything.  If that parent check is denied the call returns the
cannot-create-parent message and leaves the state unchanged; otherwise,
absent injected OS faults, the needed directories exist afterwards
(idempotently, regardless of which already existed) and the file holds
exactly the new content, with the success message returned. -/
theorem write_parent_guard (os : Os) (σ : FsState) (p C : String)
    (h1 : is_path_allowed os p = true) :
    (is_path_allowed os (pyDirname (os.abspath p)) = false →
      write_local_file os σ p C = (σ, cannotCreateMsg (pyDirname (os.abspath p)))) ∧
    (is_path_allowed os (pyDirname (os.abspath p)) = true →
      os.makedirsErr (pyDirname (os.abspath p)) = none →
      os.openWriteErr (os.abspath p) = none →
      (write_local_file os σ p C).2 = writeSuccessMsg p ∧
      getFile (write_local_file os σ p C).1 (os.abspath p) = some C ∧
      ∀ d ∈ dirChain (pyDirname (os.abspath p)),
        ((write_local_file os σ p C).1).dirs.contains d = true) := by
  constructor
  · intro hp
    unfold write_local_file
    simp only [h1, hp, Bool.not_true, Bool.not_false, Bool.false_eq_true, if_false, if_true]
  · intro hp h3 h4
    unfold write_local_file
    simp only [h1, hp, h3, h4, Bool.not_true, Bool.false_eq_true, if_false]
    refine ⟨trivial, ?_, ?_⟩
    · unfold getFile
      simp [List.find?_cons]
    · intro d hd
      exact contains_append_filter σ.dirs _ d hd

/-- Witness for C5 (amended) at concrete inputs over `osW`: writing to the
root path itself has its parent `/` denied and returns the cannot-create
message unchanged-state, while writing to `/R/sub/a.txt`, whose parent
`/R/sub` is allowed, succeeds. -/
theorem write_parent_guard_witness :
    write_local_file osW fsW "/R" "x" = (fsW, cannotCreateMsg (pyDirname (osW.abspath "/R"))) ∧
    (write_local_file osW fsW "/R/sub/a.txt" "x").2 = writeSuccessMsg "/R/sub/a.txt" := by
  constructor
  · exact (write_parent_guard osW fsW "/R" "x" (by decide)).1 (by decide)
  · exact ((write_parent_guard osW fsW "/R/sub/a.txt" "x" (by decide)).2
      (by decide) (by decide) (by decide)).1

/-- Counterexample to C5 as stated: over root `/S` with `/S/ln` a symlink
to the root, the file path resolves (via `realpath`) to `/S`, so the
parent of the resolved path is `/` — which the guard denies — yet the
write does not return the cannot-create-parent result the claim requires
for that case: the code checked `dirname` of the unresolved absolute path
`/S/ln`, namely `/S`, which is allowed, and proceeded to the OS write. -/
theorem write_parent_guard_counterexample :
    is_path_allowed osLinkRootS "/S/ln" = true ∧
    osLinkRootS.realpath (osLinkRootS.abspath "/S/ln") = some "/S" ∧
    is_path_allowed osLinkRootS (pyDirname "/S") = false ∧
    (write_local_file osLinkRootS fsLinkRootS "/S/ln" "x").2 ≠
      cannotCreateMsg (pyDirname "/S") := by
  refine ⟨by decide, by decide, by decide, by decide⟩

/-- Claim C10, amended: for every content string, a write whose file path
has the allowed root itself as its absolute (pre-symlink-resolution) form
passes the first guard check, then guard-checks the parent of the root
(the dirname of that absolute form), which is denied, so the call returns
the cannot-create-directory error and performs no directory creation or
file write.  When the path reaches the root only through a symbolic link,
the parent the code checks is the dirname of the unresolved absolute
path instead, and the call can proceed past this check (see the
counterexample). -/
theorem write_to_root_denied (os : Os) (σ : FsState) (p C : String)
    (habs : os.abspath p = os.root)
    (hrr : os.realpath os.root = some os.root)
    (hp1 : os.realpath (os.abspath (pyDirname os.root)) = some (pyDirname os.root))
    (hp2 : pyDirname os.root ≠ os.root)
    (hp3 : pyStartswith (pyDirname os.root) (os.root ++ osSep) = false) :
    is_path_allowed os p = true ∧
    write_local_file os σ p C = (σ, cannotCreateMsg (pyDirname os.root)) := by
  have hguard : is_path_allowed os p = true := by
    unfold is_path_allowed
    rw [habs, hrr]
    simp
  have hparent : is_path_allowed os (pyDirname os.root) = false := by
    unfold is_path_allowed
    rw [hp1]
    dsimp only
    rw [if_neg hp2]
    simp [hp3]
  refine ⟨hguard, ?_⟩
  unfold write_local_file
  rw [habs]
  simp only [hguard, hparent, Bool.not_true, Bool.not_false, Bool.false_eq_true,
    if_false, if_true]

/-- Witness for C10 (amended) over `osW`: writing any content to the root
path `/R` itself is refused with the cannot-create message for `/`, the
parent of the root, and the state is unchanged. -/
theorem write_to_root_denied_witness :
    is_path_allowed osW "/R" = true ∧
    write_local_file osW fsW "/R" "y" = (fsW, cannotCreateMsg (pyDirname osW.root)) :=
  write_to_root_denied osW fsW "/R" "y" (by decide) (by decide) (by decide)
    (by decide) (by decide)

/-- Counterexample to C10 as stated: over root `/R` with `/R/link` a
symlink to the root, the file path resolves to the allowed root itself and
passes the first guard check, yet the write does not return the
cannot-create-directory error: the parent the code checks is `/R` (the
dirname of the unresolved absolute path), which is allowed, so the call
proceeds to `makedirs` and the OS write (which raises
`IsADirectoryError`, reported as the generic write error). -/
theorem write_to_root_denied_counterexample :
    osLinkRoot.realpath (osLinkRoot.abspath "/R/link") = some osLinkRoot.root ∧
    is_path_allowed osLinkRoot "/R/link" = true ∧
    (write_local_file osLinkRoot fsLinkRoot "/R/link" "hi").2 ≠
      cannotCreateMsg (pyDirname osLinkRoot.root) ∧
    pyStartswith (write_local_file osLinkRoot fsLinkRoot "/R/link" "hi").2
      "Error: Cannot create directory" = false := by
  refine ⟨by decide, by decide, by decide, by decide⟩

/-- Prepending on the left preserves an infix of the character data. -/
theorem infix_data_append_left (mid : List Char) (a b : String)
    (h : mid <:+: b.data) : mid <:+: (a ++ b).data := by
  obtain ⟨s, t, hst⟩ := h
  exact ⟨a.data ++ s, t, by rw [String.data_append, ← hst]; simp⟩

/-- Claim C6: when the guard denies a path, reading it and listing it both
return the access-denied message — containing `"Access denied"` — whatever
the filesystem state holds, so the guard check precedes and overrides any
existence check. -/
theorem denied_precedes_existence (os : Os) (p : String)
    (h : is_path_allowed os p = false) :
    (∀ σ : FsState, read_local_file os σ p = readDeniedMsg p) ∧
    (∀ σ : FsState, list_directory os σ p = Sum.inl (listDeniedMsg p)) ∧
    "Access denied".data <:+: (readDeniedMsg p).data ∧
    "Access denied".data <:+: (listDeniedMsg p).data := by
  refine ⟨fun σ => ?_, fun σ => ?_, ?_, ?_⟩
  · unfold read_local_file
    simp [h]
  · unfold list_directory
    simp [h]
  · unfold readDeniedMsg
    exact infix_data_append _ _ _ (infix_data_append _ _ _ (by decide))
  · unfold listDeniedMsg
    exact infix_data_append _ _ _ (infix_data_append _ _ _ (by decide))

/-- Witness for C6 over `osW`: `/out/evil.txt` is outside the root; read
and list return the access-denied messages both when the path is absent
from the state and when the state records it as an existing file. -/
theorem denied_precedes_existence_witness :
    read_local_file osW fsW "/out/evil.txt" = readDeniedMsg "/out/evil.txt" ∧
    read_local_file osW ⟨[("/out/evil.txt", "secret")], ["/out"]⟩ "/out/evil.txt"
      = readDeniedMsg "/out/evil.txt" ∧
    list_directory osW fsW "/out/evil.txt" = Sum.inl (listDeniedMsg "/out/evil.txt") := by
  have h := denied_precedes_existence osW "/out/evil.txt" (by decide)
  exact ⟨h.1 fsW, h.1 _, h.2.1 fsW⟩

/-- Claim C7: for an allowed path, listing distinguishes the failure
cases: a path that does not exist yields the not-found message (containing
`"not found"`), and an existing non-directory yields the not-a-directory
message (containing `"not a directory"`). -/
theorem list_distinguishes_missing_and_nondir (os : Os) (p : String)
    (hallow : is_path_allowed os p = true) :
    (∀ σ : FsState, pathExists σ (os.abspath p) = false →
      list_directory os σ p = Sum.inl (dirNotFoundMsg p)) ∧
    (∀ σ : FsState, pathExists σ (os.abspath p) = true →
      σ.dirs.contains (os.abspath p) = false →
      list_directory os σ p = Sum.inl (notADirMsg p)) ∧
    "not found".data <:+: (dirNotFoundMsg p).data ∧
    "not a directory".data <:+: (notADirMsg p).data := by
  refine ⟨fun σ hne => ?_, fun σ hex hnd => ?_, ?_, ?_⟩
  · unfold list_directory
    simp [hallow, hne]
  · unfold list_directory
    simp [hallow, hex, hnd]
    intro hmem
    exact absurd hmem (by simpa using hnd)
  · unfold dirNotFoundMsg
    exact infix_data_append _ _ _ (infix_data_append _ _ _ (by decide))
  · unfold notADirMsg
    exact infix_data_append_left _ _ _ (by decide)

/-- Witness for C7 over `osW`: `/R/sub` is allowed; listing it while the
state lacks it yields the not-found message, and while the state records
it as a file yields the not-a-directory message. -/
theorem list_distinguishes_witness :
    list_directory osW fsW "/R/sub" = Sum.inl (dirNotFoundMsg "/R/sub") ∧
    list_directory osW ⟨[("/R/sub", "data")], ["/R"]⟩ "/R/sub"
      = Sum.inl (notADirMsg "/R/sub") := by
  have h := list_distinguishes_missing_and_nondir osW "/R/sub" (by decide)
  exact ⟨h.1 fsW (by decide), h.2.1 ⟨[("/R/sub", "data")], ["/R"]⟩ (by decide) (by decide)⟩

/-- Claim C8: a successful `find_files_by_pattern` returns exactly the
guard-allowed glob matches, rendered; every returned path is the rendering
of a match the guard re-checked and allowed, and the matches that fail the
re-check are silently dropped from the result rather than reported. -/
theorem find_filters_matches (os : Os) (σ : FsState) (base pat : String)
    (recursive : Bool) (ms : List String)
    (h1 : is_path_allowed os base = true)
    (h2 : pathExists σ (os.abspath base) = true)
    (h3 : σ.dirs.contains (os.abspath base) = true)
    (h4 : os.glob (searchPattern os base pat recursive) recursive = .ok ms) :
    find_files_by_pattern os σ base pat recursive =
      Sum.inr ((ms.filter (fun m => is_path_allowed os m)).map (renderMatch os)) ∧
    ∀ q ∈ (ms.filter (fun m => is_path_allowed os m)).map (renderMatch os),
      ∃ m, m ∈ ms ∧ is_path_allowed os m = true ∧ q = renderMatch os m := by
  constructor
  · unfold find_files_by_pattern
    simp only [h1, h2, h3, h4, Bool.not_true, Bool.false_eq_true, if_false, Bool.not_false,
      if_true]
    rw [foldl_filter_map]
    simp
  · intro q hq
    rw [List.mem_map] at hq
    obtain ⟨m, hm, heq⟩ := hq
    rw [List.mem_filter] at hm
    exact ⟨m, hm.1, hm.2, heq.symm⟩

/-- Witness for C8 over `osW`: the glob for `*.txt` under `/R` yields one
match inside the root and one symlink-escaped match outside it; the result
keeps only the rendered inside match and drops the outside one. -/
theorem find_filters_matches_witness :
    find_files_by_pattern osW fsW "/R" "*.txt" false = Sum.inr ["./a.txt"] ∧
    is_path_allowed osW "/R/a.txt" = true ∧
    is_path_allowed osW "/out/b.txt" = false := by
  have h := find_filters_matches osW fsW "/R" "*.txt" false ["/R/a.txt", "/out/b.txt"]
    (by decide) (by decide) (by decide) (by rfl)
  refine ⟨?_, by decide, by decide⟩
  rw [h.1]
  decide

/-- Claim C9: when the relative-path computation succeeds for a match, the
current-directory marker `"." + os.sep` is prepended exactly when the
root-relative path does not already start with the character `"."` (the
code tests for `"."` or `".."`, and the latter implies the former); hence
a match whose root-relative path begins with `"."` — a hidden file such as
`.gitignore` directly under the root — is returned unchanged, without the
`"./"` marker. -/
theorem find_relative_prefixing (os : Os) (m rel : String)
    (h : os.relpath m os.root = some rel) :
    renderMatch os m = (if pyStartswith rel "." = true then rel else "." ++ osSep ++ rel) ∧
    (pyStartswith rel "." = true → renderMatch os m = rel) := by
  have hsimp : renderMatch os m =
      if !(pyStartswith rel "." || pyStartswith rel "..") then "." ++ osSep ++ rel
      else rel := by
    unfold renderMatch
    rw [h]
  constructor
  · rw [hsimp]
    by_cases hs : pyStartswith rel "." = true
    · simp [hs]
    · have hs0 : pyStartswith rel "." = false := by
        revert hs
        cases pyStartswith rel "." <;> simp
      have hss : pyStartswith rel ".." = false := by
        cases hdd : pyStartswith rel ".."
        · rfl
        · exact absurd (startswith_dot_of_dotdot rel hdd) hs
      simp [hs0, hss]
  · intro hs
    rw [hsimp]
    simp [hs]

/-- Witness for C9 over `osW`: the hidden file `/R/.gitignore` has
root-relative path `.gitignore` and is returned without the marker, while
`/R/a.txt` has root-relative path `a.txt` and receives the `./` marker. -/
theorem find_relative_prefixing_witness :
    renderMatch osW "/R/.gitignore" = ".gitignore" ∧
    renderMatch osW "/R/a.txt" = "./a.txt" := by
  have h1 := find_relative_prefixing osW "/R/.gitignore" ".gitignore" (by decide)
  have h2 := find_relative_prefixing osW "/R/a.txt" "a.txt" (by decide)
  constructor
  · exact h1.2 (by decide)
  · rw [h2.1]
    decide
